import Mathlib

/-!
Verification of the core of the `highspell-online-bot` repository
(`src/bot.js`, class `OnlineBot`): a Discord bot that polls a web page
for an "active member count" (and optionally a list of per-world
counts), and keeps a single channel message edited with the latest
values.

The JavaScript source is shallowly embedded: JS numbers that can be
`undefined` or `NaN` are modelled by `JSVal`; `undefined`-returning
fallible helpers return `Option`; thrown-and-caught exceptions are
modelled with `Except`; the `poll` method becomes a pure step function
`pollStep` over an explicit `BotState`, taking the outcomes of the
cycle's network calls as inputs.
-/

set_option autoImplicit false

namespace OnlineBot

/-! ## Characters, JS whitespace, and JS `parseInt` -/

/-- Decimal digter test, `'0'..'9'`. -/
def isDecDigit (c : Char) : Bool := '0' ≤ c && c ≤ '9'

/-- Numeric value of a decimal digit character. -/
def decVal (c : Char) : Nat := c.toNat - '0'.toNat

/-- Hex digit test, as accepted by JS `parseInt` after a `0x` prefix. -/
def isHexDigit (c : Char) : Bool :=
  isDecDigit c || ('a' ≤ c && c ≤ 'f') || ('A' ≤ c && c ≤ 'F')

/-- Numeric value of a hex digit character. -/
def hexVal (c : Char) : Nat :=
  if isDecDigit c then decVal c
  else if 'a' ≤ c && c ≤ 'f' then c.toNat - 'a'.toNat + 10
  else c.toNat - 'A'.toNat + 10

/-- Whitespace characters recognised by JS `trim` and `parseInt`. -/
def isJsSpace (c : Char) : Bool :=
  c == ' ' || c == '\t' || c == '\n' || c == '\r' || c == '\x0b' || c == '\x0c'

/-- Base-10 positional value of a digit list. -/
def decFold (ds : List Char) : Nat := ds.foldl (fun a c => a * 10 + decVal c) 0

/-- Base-16 positional value of a digit list. -/
def hexFold (ds : List Char) : Nat := ds.foldl (fun a c => a * 16 + hexVal c) 0

/-- Longest decimal-digit prefix, as a number; `none` when there is no digit
(JS `parseInt` yields `NaN` there). -/
def decDigitsNum (cs : List Char) : Option Nat :=
  if (cs.takeWhile isDecDigit).isEmpty then none
  else some (decFold (cs.takeWhile isDecDigit))

/-- Longest hex-digit prefix, as a number; `none` when there is no digit. -/
def hexDigitsNum (cs : List Char) : Option Nat :=
  if (cs.takeWhile isHexDigit).isEmpty then none
  else some (hexFold (cs.takeWhile isHexDigit))

/-- Whether the input starts with the `0x`/`0X` hex marker of JS
`parseInt`. -/
def hexMarker : List Char → Bool
  | c0 :: c1 :: _ => c0 == '0' && (c1 == 'x' || c1 == 'X')
  | _ => false

/-- Unsigned part of JS `parseInt` with no radix argument: a `0x`/`0X`
prefix switches to hexadecimal, otherwise the longest decimal prefix is
taken. -/
def parseUnsigned (cs : List Char) : Option Nat :=
  if hexMarker cs then hexDigitsNum (cs.drop 2) else decDigitsNum cs

/-- Signed part of JS `parseInt`: one optional leading `-` or `+`. -/
def parseSigned (cs : List Char) : Option Int :=
  match cs with
  | c :: rest =>
    if c = '-' then (parseUnsigned rest).map (fun n => -(n : Int))
    else if c = '+' then (parseUnsigned rest).map (fun n => (n : Int))
    else (parseUnsigned (c :: rest)).map (fun n => (n : Int))
  | [] => none

/-- JS `parseInt(s)` with no radix: skip leading whitespace, read an
optional sign, then the longest digit prefix; `none` models `NaN`. -/
def parseIntJS (s : String) : Option Int :=
  parseSigned (s.data.dropWhile isJsSpace)

/-- JS `String.prototype.trim`: strip leading and trailing whitespace. -/
def jsTrim (s : String) : String :=
  ⟨((s.data.dropWhile isJsSpace).reverse.dropWhile isJsSpace).reverse⟩

/-! ## Count extraction (from `fetchTotalMemberCount` / `fetchWorldsMemberCount`) -/

/-- The numeric-parse error thrown inside the fetch helpers of `bot.js`.
Its message embeds the offending trimmed text (and nothing else: in
particular no position). -/
structure ParseError where
  text : String
deriving DecidableEq, Repr

instance {ε α : Type} [DecidableEq ε] [DecidableEq α] : DecidableEq (Except ε α) :=
  fun a b =>
    match a, b with
    | .error e, .error e' => decidable_of_iff (e = e') (by simp)
    | .ok x, .ok x' => decidable_of_iff (x = x') (by simp)
    | .error _, .ok _ => isFalse (by simp)
    | .ok _, .error _ => isFalse (by simp)

/-- Body of `fetchTotalMemberCount` after the fetch, from `bot.js`:
`const count = parseInt(siteCount.trim()); if (Number.isNaN(count)) throw ...`. -/
def extractAggregate (siteCount : String) : Except ParseError Int :=
  match parseIntJS (jsTrim siteCount) with
  | none => .error ⟨jsTrim siteCount⟩
  | some n => .ok n

/-- Loop body of `fetchWorldsMemberCount` from `bot.js`: parse each
element's first-child text in order, throwing on the first failure. -/
def extractSegments : List String → Except ParseError (List Int)
  | [] => .ok []
  | t :: rest =>
    match parseIntJS (jsTrim t) with
    | none => .error ⟨jsTrim t⟩
    | some n => (extractSegments rest).map (fun ws => n :: ws)

/-- A JS number-or-undefined value as stored in `cachedCount` and
returned by `fetchTotalMemberCount`. -/
inductive JSVal where
  | undef
  | nan
  | int (n : Int)
deriving DecidableEq, Repr

/-- JS strict equality `===` restricted to `JSVal` (`NaN !== NaN`). -/
def jsStrictEq : JSVal → JSVal → Bool
  | .int n, .int m => n == m
  | .undef, .undef => true
  | _, _ => false

/-- Test for the JS value `undefined`. -/
def jsIsUndef : JSVal → Bool
  | .undef => true
  | _ => false

/-- Test for the JS value `NaN` (`Number.isNaN`). -/
def jsIsNaN : JSVal → Bool
  | .nan => true
  | _ => false

/-- `fetchTotalMemberCount` from `bot.js`. The whole body sits in a
`try`/`catch` that logs and falls through, so a failed fetch or a failed
parse makes the method return `undefined` rather than propagate the
error. The input is the outcome of `util.fetchData`: the selected
element's text, or a fetch/transport error. -/
def fetchTotalMemberCount (fetched : Except Unit String) : JSVal :=
  match fetched with
  | .error _ => .undef
  | .ok text =>
    match extractAggregate text with
    | .error _ => .undef
    | .ok n => .int n

/-- `fetchWorldsMemberCount` from `bot.js`. Same `try`/`catch` shape:
on a fetch error or the first parse failure it returns `undefined`
(`none`); otherwise the fully parsed list. The input is the outcome of
`util.fetchData`: the first-child texts of the selected elements. -/
def fetchWorldsMemberCount (fetched : Except Unit (List String)) : Option (List Int) :=
  match fetched with
  | .error _ => none
  | .ok texts =>
    match extractSegments texts with
    | .error _ => none
    | .ok ws => some ws

/-! ## Message building (`buildMessage`) -/

/-- One embed field, as produced for each world count or supplied by the
config template. -/
structure Field where
  name : String
  value : String
  inline : Bool
deriving DecidableEq, Repr

/-- The embed object built by `buildMessage`. -/
structure Embed where
  color : Nat
  title : String
  url : String
  description : String
  timestamp : String
  fields : List Field
deriving DecidableEq, Repr

/-- The optional `config.embed` override object, as a typed structure of
the keys the default embed carries. A present key overwrites the default
(`fields` instead appends). -/
structure EmbedTemplate where
  color : Option Nat := none
  title : Option String := none
  url : Option String := none
  description : Option String := none
  timestamp : Option String := none
  fields : Option (List Field) := none
deriving DecidableEq, Repr

/-- The payload `buildMessage` returns: `{ embeds: [embed], content: '' }`. -/
structure MessagePayload where
  embeds : List Embed
  content : String
deriving DecidableEq, Repr

/-- The bot configuration fields the core uses (`config.json`, validated
by the excluded bootstrap layer). `worldsEnabled` models the presence of
the optional `config.worldsCount` selector. -/
structure Config where
  url : String
  worldsEnabled : Bool
  embed : Option EmbedTemplate
  pollRate : Nat
deriving Repr

/-- The description text for the current cached count: `'*Updating...*'`
while `cachedCount` is still `undefined`, otherwise the bolded value. -/
def countText : JSVal → String
  | .undef => "*Updating...*"
  | .nan => "**NaN**"
  | .int n => "**" ++ toString n ++ "**"

/-- The generated per-world fields: `worldsCount.map((c, i) => ...)`,
one inline field per world labelled by 1-based position. -/
def worldFields (ws : List Int) : List Field :=
  ws.enum.map (fun p =>
    { name := "World " ++ toString (p.fst + 1)
      value := "**" ++ toString p.snd ++ "**"
      inline := true })

/-- The default embed of `buildMessage`, before the config template is
applied. -/
def defaultEmbed (cfg : Config) (cached : JSVal) (ws : List Int) (now : String) : Embed :=
  { color := 0x0099ff
    title := "Online Players"
    url := cfg.url
    description := "Current member count: " ++ countText cached
    timestamp := now
    fields := worldFields ws }

/-- The `for (const key in configEmbed)` merge loop of `buildMessage`:
every present template key overwrites the default, except `fields`,
which is concatenated after the generated fields. -/
def applyTemplate (e : Embed) : Option EmbedTemplate → Embed
  | none => e
  | some t =>
    { color := t.color.getD e.color
      title := t.title.getD e.title
      url := t.url.getD e.url
      description := t.description.getD e.description
      timestamp := t.timestamp.getD e.timestamp
      fields := match t.fields with
        | none => e.fields
        | some fs => e.fields ++ fs }

/-- `buildMessage` from `bot.js`. `worldsCount` is `none` when the field
holds JS `undefined`; evaluating `this.worldsCount.map` then throws a
`TypeError`, modelled as the `error` branch. `now` stands for
`new Date().toISOString()` at build time. -/
def buildMessage (cfg : Config) (cached : JSVal) (worldsCount : Option (List Int))
    (now : String) : Except Unit MessagePayload :=
  match worldsCount with
  | none => .error ()
  | some ws =>
    .ok { embeds := [applyTemplate (defaultEmbed cfg cached ws now) cfg.embed]
          content := "" }

/-! ## Poll state and one poll cycle (`poll`) -/

/-- The mutable fields of the `OnlineBot` instance that the poll loop
touches. `worldsCount : Option (List Int)` models that the JS field can
hold `undefined` (when a worlds fetch failed) as well as an array. -/
structure BotState where
  cachedCount : JSVal
  worldsCount : Option (List Int)
  running : Bool
deriving DecidableEq, Repr

/-- The field values set by the `OnlineBot` constructor. -/
def initState : BotState :=
  { cachedCount := .undef, worldsCount := some [], running := false }

/-- The outside-world outcomes one poll cycle consumes: the aggregate
fetch result, the worlds fetch result, whether the message edit is
accepted by the platform, and the render timestamp. -/
structure PollInput where
  totalFetch : Except Unit String
  worldsFetch : Except Unit (List String)
  editOk : Bool
  now : String

/-- The observable outcome of one poll cycle: the state after the cycle,
the payloads passed to `messageRef.edit` during the cycle, and whether a
next cycle was scheduled (`if (this.running) setTimeout(...)`). -/
structure PollResult where
  state : BotState
  edits : List MessagePayload
  scheduled : Bool

/-- The update guard of `poll`:
`newCount !== undefined && !Number.isNaN(newCount) && newCount !== this.cachedCount`. -/
def pollGuard (newCount cached : JSVal) : Bool :=
  !jsIsUndef newCount && !jsIsNaN newCount && !jsStrictEq newCount cached

/-- One execution of `poll` from `bot.js`. The fetch helpers never throw
(they catch internally); inside the `try`, the only possible throws are
the `TypeError` from `buildMessage` when `worldsCount` is `undefined`
and a rejected `edit` (`DeliveryError`); either is caught at the cycle
boundary, logged, and sets `running = false`. After the `try`/`catch`,
the next cycle is scheduled exactly when `running` is still true. -/
def pollStep (cfg : Config) (st : BotState) (inp : PollInput) : PollResult :=
  let newCount := fetchTotalMemberCount inp.totalFetch
  let w := if cfg.worldsEnabled then fetchWorldsMemberCount inp.worldsFetch else st.worldsCount
  let st1 : BotState := { st with worldsCount := w }
  if pollGuard newCount st.cachedCount then
    let st2 : BotState := { st1 with cachedCount := newCount }
    match buildMessage cfg st2.cachedCount st2.worldsCount inp.now with
    | .error _ =>
      { state := { st2 with running := false }, edits := [], scheduled := false }
    | .ok p =>
      if inp.editOk then
        { state := st2, edits := [p], scheduled := st2.running }
      else
        { state := { st2 with running := false }, edits := [p], scheduled := false }
  else
    { state := st1, edits := [], scheduled := st1.running }

/-! ## Message acquisition (`getOrSendMessage`) -/

/-- A message as seen in the channel history: its author, its number of
embeds, its creation timestamp, and an identifier. -/
structure ChannelMessage where
  authorId : String
  embedCount : Nat
  createdTimestamp : Nat
  id : String
deriving DecidableEq, Repr

/-- The filter of `getOrSendMessage`:
`msg.author.id === this.client.user.id && msg.embeds.length > 0`. -/
def messageMatches (selfId : String) (m : ChannelMessage) : Bool :=
  m.authorId == selfId && decide (0 < m.embedCount)

/-- Sorting the filtered collection by `createdTimestamp` descending and
taking the first element: the member with the greatest timestamp, the
earliest such member on ties (JS `Array.sort` is stable). -/
def newestMessage : List ChannelMessage → Option ChannelMessage
  | [] => none
  | m :: rest =>
    some (rest.foldl (fun best x =>
      if best.createdTimestamp < x.createdTimestamp then x else best) m)

/-- Result of `getOrSendMessage`: either an existing message was found,
or a freshly built payload was sent as a new message. -/
inductive AcquireResult where
  | found (m : ChannelMessage)
  | sent (p : MessagePayload)
deriving DecidableEq, Repr

/-- `getOrSendMessage` from `bot.js`. `channelMsgs` is the channel
history, newest first; `messages.fetch({ limit: 10 })` returns its first
ten entries. The cache fields are those of the bot at call time. -/
def getOrSendMessage (cfg : Config) (selfId : String) (channelMsgs : List ChannelMessage)
    (cached : JSVal) (worldsCount : Option (List Int)) (now : String) :
    Except Unit AcquireResult :=
  let messages := channelMsgs.take 10
  let botMessages := messages.filter (messageMatches selfId)
  match newestMessage botMessages with
  | some m => .ok (.found m)
  | none => (buildMessage cfg cached worldsCount now).map AcquireResult.sent

/-! ## Spec-side definitions

Definitions below named `spec_...` follow the words of the
specification, not the source; they give the spec's notion of "valid
base-10 integer text" against which the source's `parseInt`-based
behaviour is compared. -/

/-- Spec notion of a valid base-10 integer string: an optional single
sign followed by one or more decimal digits, with nothing else. -/
def spec_validChars (cs : List Char) : Bool :=
  match cs with
  | [] => false
  | c :: rest =>
    if c = '-' ∨ c = '+' then !rest.isEmpty && rest.all isDecDigit
    else (c :: rest).all isDecDigit

/-- The integer denoted by a valid base-10 integer string. -/
def spec_valueChars (cs : List Char) : Int :=
  match cs with
  | [] => 0
  | c :: rest =>
    if c = '-' then -(decFold rest : Int)
    else if c = '+' then (decFold rest : Int)
    else (decFold (c :: rest) : Int)

/-- Validity of a string as spec-level base-10 integer text. -/
def spec_isValidIntegerText (s : String) : Bool := spec_validChars s.data

/-- Value of spec-level base-10 integer text. -/
def spec_intValue (s : String) : Int := spec_valueChars s.data

/-! ## Sanity checks -/

example : parseIntJS "42" = some 42 := by decide
example : parseIntJS " -7" = some (-7) := by decide
example : parseIntJS "42abc" = some 42 := by decide
example : parseIntJS "0x1f" = some 31 := by decide
example : parseIntJS "abc" = none := by decide
example : parseIntJS "" = none := by decide
example : jsTrim "  42  " = "42" := by decide
example : extractAggregate " 42 " = .ok 42 := by decide
example : extractAggregate "42abc" = .ok 42 := by decide
example : extractAggregate "abc" = .error ⟨"abc"⟩ := by decide
example : extractSegments ["1", " 2 ", "3"] = .ok [1, 2, 3] := by decide
example : extractSegments ["1", "abc", "3"] = .error ⟨"abc"⟩ := by decide
example : fetchTotalMemberCount (.ok "oops") = .undef := by decide
example : fetchWorldsMemberCount (.error ()) = none := by decide

/-! ## Lemmas about `parseIntJS` on fully valid integer text -/

theorem takeWhile_of_all {p : Char → Bool} :
    ∀ l : List Char, l.all p = true → l.takeWhile p = l := by
  intro l h
  induction l with
  | nil => rfl
  | cons c cs ih =>
    simp only [List.all_cons, Bool.and_eq_true] at h
    simp [List.takeWhile_cons, h.1, ih h.2]

theorem decDigitsNum_of_all (c : Char) (cs : List Char)
    (h : (c :: cs).all isDecDigit = true) :
    decDigitsNum (c :: cs) = some (decFold (c :: cs)) := by
  unfold decDigitsNum
  rw [takeWhile_of_all _ h]
  rfl

theorem isJsSpace_of_digit {c : Char} (h : isDecDigit c = true) : isJsSpace c = false := by
  by_contra hc
  rw [Bool.not_eq_false] at hc
  unfold isJsSpace at hc
  simp only [Bool.or_eq_true, beq_iff_eq] at hc
  rcases hc with ((((h1 | h1) | h1) | h1) | h1) | h1 <;> subst h1 <;>
    exact absurd h (by decide)

theorem hexMarker_of_digits {c : Char} {cs : List Char}
    (h : (c :: cs).all isDecDigit = true) : hexMarker (c :: cs) = false := by
  cases cs with
  | nil => rfl
  | cons c1 rest =>
    simp only [List.all_cons, Bool.and_eq_true] at h
    have h1 : isDecDigit c1 = true := h.2.1
    have hx : c1 ≠ 'x' := by intro e; subst e; exact absurd h1 (by decide)
    have hX : c1 ≠ 'X' := by intro e; subst e; exact absurd h1 (by decide)
    simp [hexMarker, hx, hX]

theorem parseUnsigned_of_digits (c : Char) (cs : List Char)
    (h : (c :: cs).all isDecDigit = true) :
    parseUnsigned (c :: cs) = some (decFold (c :: cs)) := by
  unfold parseUnsigned
  rw [hexMarker_of_digits h]
  simp [decDigitsNum_of_all c cs h]

theorem parseIntJS_of_valid (s : String) (h : spec_isValidIntegerText s = true) :
    parseIntJS s = some (spec_intValue s) := by
  unfold spec_isValidIntegerText at h
  unfold parseIntJS spec_intValue
  cases hd : s.data with
  | nil => rw [hd] at h; exact absurd h (by decide)
  | cons c rest =>
    rw [hd] at h
    simp only [spec_validChars] at h
    by_cases hsign : c = '-' ∨ c = '+'
    · rw [if_pos hsign] at h
      simp only [Bool.and_eq_true, Bool.not_eq_true', List.isEmpty_eq_false] at h
      obtain ⟨hne, hall⟩ := h
      obtain ⟨d, ds, hrest⟩ : ∃ d ds, rest = d :: ds := by
        cases rest with
        | nil => exact absurd rfl hne
        | cons d ds => exact ⟨d, ds, rfl⟩
      subst hrest
      rcases hsign with hsign | hsign <;> subst hsign
      · rw [List.dropWhile_cons, if_neg (by decide)]
        simp only [parseSigned]
        rw [parseUnsigned_of_digits d ds hall]
        simp [spec_valueChars]
      · rw [List.dropWhile_cons, if_neg (by decide)]
        simp only [parseSigned]
        rw [parseUnsigned_of_digits d ds hall]
        simp [spec_valueChars]
    · rw [if_neg hsign] at h
      push_neg at hsign
      have hc : isDecDigit c = true := by
        simp only [List.all_cons, Bool.and_eq_true] at h
        exact h.1
      rw [List.dropWhile_cons, if_neg (by simp [isJsSpace_of_digit hc])]
      simp only [parseSigned]
      rw [if_neg hsign.1, if_neg hsign.2, parseUnsigned_of_digits c rest h]
      simp [spec_valueChars, hsign.1, hsign.2]

/-! ## Claim C2: aggregate-count extraction -/

/-- Claim C2 (amended): `extractAggregate` returns the value of any text
whose trimmed form is a valid base-10 integer; it fails with a
`ParseError` carrying the trimmed text exactly when JS `parseInt` finds
no numeric prefix in the trimmed text. (The original claim's "any text
whose trimmed form is not a valid integer fails" is refuted by
`parseInt`'s prefix semantics, see the counterexample.) -/
theorem C2_extractAggregate_amended :
    (∀ s : String, spec_isValidIntegerText (jsTrim s) = true →
      extractAggregate s = .ok (spec_intValue (jsTrim s))) ∧
    (∀ s : String, parseIntJS (jsTrim s) = none →
      extractAggregate s = .error { text := jsTrim s }) := by
  constructor
  · intro s h
    unfold extractAggregate
    rw [parseIntJS_of_valid _ h]
  · intro s h
    unfold extractAggregate
    rw [h]

/-- Claim C2 counterexample: `"42abc"` is not valid integer text, yet
`extractAggregate` returns `42` (JS `parseInt` prefix semantics) instead
of failing with a `ParseError`. -/
theorem C2_counterexample :
    spec_isValidIntegerText (jsTrim "42abc") = false ∧
    extractAggregate "42abc" = Except.ok 42 := ⟨by decide, by decide⟩

/-- Witness for C2: both branches of the amended claim evaluated at
concrete inputs. -/
theorem C2_witness :
    extractAggregate " 42 " = Except.ok 42 ∧
    extractAggregate "abc" = Except.error { text := "abc" } := by
  constructor
  · have h := C2_extractAggregate_amended.1 " 42 " (by decide)
    rwa [show spec_intValue (jsTrim " 42 ") = 42 by decide] at h
  · have h := C2_extractAggregate_amended.2 "abc" (by decide)
    rwa [show jsTrim "abc" = "abc" by decide] at h

/-! ## Claim C7: segment-count extraction -/

theorem extractSegments_ok_length :
    ∀ (texts : List String) (ws : List Int),
      extractSegments texts = .ok ws → ws.length = texts.length := by
  intro texts
  induction texts with
  | nil =>
    intro ws h
    simp only [extractSegments] at h
    cases h
    rfl
  | cons t rest ih =>
    intro ws h
    simp only [extractSegments] at h
    cases hp : parseIntJS (jsTrim t) with
    | none => rw [hp] at h; cases h
    | some n =>
      rw [hp] at h
      cases hr : extractSegments rest with
      | error e => rw [hr] at h; cases h
      | ok ws' =>
        rw [hr] at h
        cases h
        simp [ih ws' hr]

/-- Claim C7 (amended): over `N` elements, if every element's trimmed
first-child text has a numeric prefix (JS `parseInt` semantics),
segment extraction returns exactly the `N` parsed integers in document
order; if some element's text has no numeric prefix, it fails at the
first such element with a `ParseError` carrying that trimmed text (the
error does not carry a position), and no partial sequence is returned.
(The original claim's "any invalid entry makes it fail" is refuted by
`parseInt`'s prefix semantics, see the counterexample.) -/
theorem C7_extractSegments_amended :
    (∀ texts : List String,
      (∀ t ∈ texts, (parseIntJS (jsTrim t)).isSome = true) →
      extractSegments texts =
        .ok (texts.map (fun t => (parseIntJS (jsTrim t)).getD 0))) ∧
    (∀ (pre : List String) (bad : String) (post : List String),
      (∀ t ∈ pre, (parseIntJS (jsTrim t)).isSome = true) →
      parseIntJS (jsTrim bad) = none →
      extractSegments (pre ++ bad :: post) = .error { text := jsTrim bad }) := by
  constructor
  · intro texts h
    induction texts with
    | nil => rfl
    | cons t rest ih =>
      obtain ⟨n, hn⟩ := Option.isSome_iff_exists.mp (h t (List.mem_cons_self t rest))
      simp only [extractSegments, List.map_cons, hn, Option.getD_some]
      rw [ih (fun t' ht' => h t' (List.mem_cons_of_mem t ht'))]
      rfl
  · intro pre bad post h hbad
    induction pre with
    | nil =>
      simp only [List.nil_append, extractSegments, hbad]
    | cons p ps ih =>
      obtain ⟨n, hn⟩ := Option.isSome_iff_exists.mp (h p (List.mem_cons_self p ps))
      simp only [List.cons_append, extractSegments, hn, List.append_eq]
      rw [ih (fun t' ht' => h t' (List.mem_cons_of_mem p ht'))]
      rfl

/-- Claim C7 counterexample: the entry `"12abc"` is not valid integer
text, yet segment extraction returns `[12]` instead of failing. -/
theorem C7_counterexample :
    spec_isValidIntegerText (jsTrim "12abc") = false ∧
    extractSegments ["12abc"] = Except.ok [12] := ⟨by decide, by decide⟩

/-- Witness for C7: both branches of the amended claim evaluated at
concrete inputs. -/
theorem C7_witness :
    extractSegments ["1", " 2 "] = Except.ok [1, 2] ∧
    extractSegments ["1", "abc", "3"] = Except.error { text := "abc" } := by
  constructor
  · exact (C7_extractSegments_amended.1 ["1", " 2 "] (by decide)).trans (by decide)
  · have h := C7_extractSegments_amended.2 ["1"] "abc" ["3"] (by decide) (by decide)
    rwa [show jsTrim "abc" = "abc" by decide] at h

/-! ## Lemmas about one poll cycle -/

theorem pollStep_cachedCount_cases (cfg : Config) (st : BotState) (inp : PollInput) :
    (pollStep cfg st inp).state.cachedCount = st.cachedCount ∨
    (∃ text n, inp.totalFetch = Except.ok text ∧ extractAggregate text = Except.ok n ∧
      (pollStep cfg st inp).state.cachedCount = JSVal.int n) := by
  cases hg : pollGuard (fetchTotalMemberCount inp.totalFetch) st.cachedCount with
  | false => left; simp [pollStep, hg]
  | true =>
    rcases hf : inp.totalFetch with e | text
    · exfalso
      rw [hf] at hg
      simp [fetchTotalMemberCount, pollGuard, jsIsUndef] at hg
    · rcases ha : extractAggregate text with pe | n
      · exfalso
        rw [hf] at hg
        simp [fetchTotalMemberCount, ha, pollGuard, jsIsUndef] at hg
      · right
        have hfetch : fetchTotalMemberCount inp.totalFetch = JSVal.int n := by
          rw [hf]; simp [fetchTotalMemberCount, ha]
        rw [hfetch] at hg
        refine ⟨text, n, rfl, ha, ?_⟩
        cases hb : buildMessage cfg (JSVal.int n)
            (if cfg.worldsEnabled then fetchWorldsMemberCount inp.worldsFetch
             else st.worldsCount) inp.now with
        | error e => simp [pollStep, hg, hfetch, hb]
        | ok p => cases he : inp.editOk <;> simp [pollStep, hg, hfetch, hb, he]

theorem pollStep_state_worldsCount (cfg : Config) (st : BotState) (inp : PollInput) :
    (pollStep cfg st inp).state.worldsCount =
      if cfg.worldsEnabled then fetchWorldsMemberCount inp.worldsFetch
      else st.worldsCount := by
  cases hg : pollGuard (fetchTotalMemberCount inp.totalFetch) st.cachedCount with
  | false => simp [pollStep, hg]
  | true =>
    cases hb : buildMessage cfg (fetchTotalMemberCount inp.totalFetch)
        (if cfg.worldsEnabled then fetchWorldsMemberCount inp.worldsFetch
         else st.worldsCount) inp.now with
    | error e => simp [pollStep, hg, hb]
    | ok p => cases he : inp.editOk <;> simp [pollStep, hg, hb, he]

/-! ## Claim C9: swallowed aggregate-fetch failures -/

/-- Claim C9: when the aggregate fetch or its parse fails,
`fetchTotalMemberCount` catches the error internally and returns
`undefined`; the cycle's update guard then fails, so `cachedCount` is
untouched, no edit is issued, `running` stays true, and the next cycle
is scheduled. -/
theorem C9_swallowed_fetch_failure :
    fetchTotalMemberCount (Except.error ()) = JSVal.undef ∧
    (∀ t : String, parseIntJS (jsTrim t) = none →
      fetchTotalMemberCount (Except.ok t) = JSVal.undef) ∧
    (∀ (cfg : Config) (st : BotState) (inp : PollInput),
      st.running = true →
      fetchTotalMemberCount inp.totalFetch = JSVal.undef →
      (pollStep cfg st inp).state.cachedCount = st.cachedCount ∧
      (pollStep cfg st inp).edits = [] ∧
      (pollStep cfg st inp).state.running = true ∧
      (pollStep cfg st inp).scheduled = true) := by
  refine ⟨rfl, ?_, ?_⟩
  · intro t h
    simp [fetchTotalMemberCount, extractAggregate, h]
  · intro cfg st inp hrun hf
    have hguard : pollGuard (fetchTotalMemberCount inp.totalFetch) st.cachedCount = false := by
      rw [hf]; rfl
    refine ⟨?_, ?_, ?_, ?_⟩ <;> simp [pollStep, hguard, hrun]

/-- Witness for C9 at a concrete failing fetch. -/
theorem C9_witness :
    (pollStep { url := "u", worldsEnabled := false, embed := none, pollRate := 1 }
        { cachedCount := JSVal.int 7, worldsCount := some [], running := true }
        { totalFetch := Except.ok "oops", worldsFetch := Except.ok [], editOk := true,
          now := "t" }).state.cachedCount = JSVal.int 7 ∧
    (pollStep { url := "u", worldsEnabled := false, embed := none, pollRate := 1 }
        { cachedCount := JSVal.int 7, worldsCount := some [], running := true }
        { totalFetch := Except.ok "oops", worldsFetch := Except.ok [], editOk := true,
          now := "t" }).scheduled = true := by
  have h := C9_swallowed_fetch_failure.2.2
    { url := "u", worldsEnabled := false, embed := none, pollRate := 1 }
    { cachedCount := JSVal.int 7, worldsCount := some [], running := true }
    { totalFetch := Except.ok "oops", worldsFetch := Except.ok [], editOk := true, now := "t" }
    rfl (by decide)
  exact ⟨h.1, h.2.2.2⟩

/-! ## Claim C3: change-gating of message edits -/

/-- Claim C3: in a poll cycle whose aggregate fetch succeeds, if the new
count strict-equals `cachedCount` no edit is issued and the cache is
unchanged; in a cycle that completes successfully with a differing
count, exactly one edit is issued, carrying the freshly rebuilt
representation, and `cachedCount` becomes the new value. Per-world
counts never influence the gate. -/
theorem C3_change_gating (cfg : Config) (st : BotState) (inp : PollInput) (n : Int)
    (_hrun : st.running = true)
    (hfetch : fetchTotalMemberCount inp.totalFetch = JSVal.int n) :
    (jsStrictEq (JSVal.int n) st.cachedCount = true →
      (pollStep cfg st inp).edits = [] ∧
      (pollStep cfg st inp).state.cachedCount = st.cachedCount) ∧
    (jsStrictEq (JSVal.int n) st.cachedCount = false →
      (pollStep cfg st inp).state.running = true →
      (pollStep cfg st inp).state.cachedCount = JSVal.int n ∧
      ∃ p, (pollStep cfg st inp).edits = [p] ∧
        buildMessage cfg (JSVal.int n)
          (if cfg.worldsEnabled then fetchWorldsMemberCount inp.worldsFetch
           else st.worldsCount) inp.now = Except.ok p) := by
  constructor
  · intro heq
    have hguard : pollGuard (fetchTotalMemberCount inp.totalFetch) st.cachedCount = false := by
      rw [hfetch]; simp [pollGuard, jsIsUndef, jsIsNaN, heq]
    constructor <;> simp [pollStep, hguard]
  · intro hne hrun'
    have hguard : pollGuard (JSVal.int n) st.cachedCount = true := by
      simp [pollGuard, jsIsUndef, jsIsNaN, hne]
    cases hb : buildMessage cfg (JSVal.int n)
        (if cfg.worldsEnabled then fetchWorldsMemberCount inp.worldsFetch
         else st.worldsCount) inp.now with
    | error e =>
      exfalso
      simp [pollStep, hfetch, hguard, hb] at hrun'
    | ok p =>
      cases he : inp.editOk with
      | false =>
        exfalso
        simp [pollStep, hfetch, hguard, hb, he] at hrun'
      | true =>
        refine ⟨?_, p, ?_, rfl⟩ <;> simp [pollStep, hfetch, hguard, hb, he]

/-- Witness for C3: a concrete changed count issues exactly one edit. -/
theorem C3_witness :
    (pollStep { url := "u", worldsEnabled := false, embed := none, pollRate := 1 }
        { cachedCount := JSVal.undef, worldsCount := some [], running := true }
        { totalFetch := Except.ok "42", worldsFetch := Except.ok [], editOk := true,
          now := "t" }).state.cachedCount = JSVal.int 42 := by
  have h := (C3_change_gating
    { url := "u", worldsEnabled := false, embed := none, pollRate := 1 }
    { cachedCount := JSVal.undef, worldsCount := some [], running := true }
    { totalFetch := Except.ok "42", worldsFetch := Except.ok [], editOk := true, now := "t" }
    42 rfl (by decide)).2 (by decide) (by decide)
  exact h.1

/-! ## Claim C8: cachedCount only holds validated values -/

/-- Claim C8: `cachedCount` starts as `undefined`; a poll cycle either
leaves it unchanged or sets it to an integer obtained from a successful
parse of the fetched text (a defined, non-`NaN` value); hence it is
never `NaN`. -/
theorem C8_cachedCount_validated :
    initState.cachedCount = JSVal.undef ∧
    (∀ (cfg : Config) (st : BotState) (inp : PollInput),
      (pollStep cfg st inp).state.cachedCount = st.cachedCount ∨
      (∃ text n, inp.totalFetch = Except.ok text ∧ extractAggregate text = Except.ok n ∧
        (pollStep cfg st inp).state.cachedCount = JSVal.int n)) ∧
    (∀ (cfg : Config) (st : BotState) (inp : PollInput),
      st.cachedCount ≠ JSVal.nan →
      (pollStep cfg st inp).state.cachedCount ≠ JSVal.nan) := by
  refine ⟨rfl, pollStep_cachedCount_cases, ?_⟩
  intro cfg st inp hnn
  rcases pollStep_cachedCount_cases cfg st inp with h | ⟨text, n, _, _, h⟩
  · rw [h]; exact hnn
  · simp [h]

/-- Witness for C8 at a concrete cycle. -/
theorem C8_witness :
    (pollStep { url := "u", worldsEnabled := false, embed := none, pollRate := 1 }
      initState
      { totalFetch := Except.ok "5", worldsFetch := Except.ok [], editOk := true,
        now := "t" }).state.cachedCount ≠ JSVal.nan := by
  exact C8_cachedCount_validated.2.2
    { url := "u", worldsEnabled := false, embed := none, pollRate := 1 }
    initState
    { totalFetch := Except.ok "5", worldsFetch := Except.ok [], editOk := true, now := "t" }
    (by decide)

/-! ## Claim C1: which errors stop the polling loop -/

/-- Claim C1 counterexample: a fetch error in the aggregate fetch (a
`FetchError` raised in the cycle) does not stop the loop — the cycle
ends with `running` still true and a next cycle scheduled, refuting the
claim that any `FetchError` in the cycle causes `Polling → Stopped`. -/
theorem C1_counterexample :
    (pollStep { url := "u", worldsEnabled := false, embed := none, pollRate := 1 }
        { cachedCount := JSVal.undef, worldsCount := some [], running := true }
        { totalFetch := Except.error (), worldsFetch := Except.ok [], editOk := true,
          now := "t" }).state.running = true ∧
    (pollStep { url := "u", worldsEnabled := false, embed := none, pollRate := 1 }
        { cachedCount := JSVal.undef, worldsCount := some [], running := true }
        { totalFetch := Except.error (), worldsFetch := Except.ok [], editOk := true,
          now := "t" }).scheduled = true := ⟨by decide, by decide⟩

/-- Claim C1 (amended): only errors that reach the poll cycle boundary —
the `TypeError` from building a message while the worlds cache is
`undefined`, or a rejected message edit — are caught there, logged, set
`running` to false and prevent a next cycle. Fetch and parse errors
inside the two fetch helpers are caught within the helpers (yielding
`undefined`) and leave the loop running. -/
theorem C1_amended_boundary_errors :
    (∀ (cfg : Config) (st : BotState) (inp : PollInput) (n : Int),
      fetchTotalMemberCount inp.totalFetch = JSVal.int n →
      jsStrictEq (JSVal.int n) st.cachedCount = false →
      (buildMessage cfg (JSVal.int n)
          (if cfg.worldsEnabled then fetchWorldsMemberCount inp.worldsFetch
           else st.worldsCount) inp.now = Except.error () ∨ inp.editOk = false) →
      (pollStep cfg st inp).state.running = false ∧
      (pollStep cfg st inp).scheduled = false) ∧
    (∀ (cfg : Config) (st : BotState) (inp : PollInput),
      fetchTotalMemberCount inp.totalFetch = JSVal.undef →
      (pollStep cfg st inp).state.running = st.running ∧
      (pollStep cfg st inp).scheduled = st.running) := by
  constructor
  · intro cfg st inp n hf hne herr
    have hguard : pollGuard (JSVal.int n) st.cachedCount = true := by
      simp [pollGuard, jsIsUndef, jsIsNaN, hne]
    rcases herr with hb | he
    · constructor <;> simp [pollStep, hf, hguard, hb]
    · cases hb : buildMessage cfg (JSVal.int n)
          (if cfg.worldsEnabled then fetchWorldsMemberCount inp.worldsFetch
           else st.worldsCount) inp.now with
      | error e => constructor <;> simp [pollStep, hf, hguard, hb]
      | ok p => constructor <;> simp [pollStep, hf, hguard, hb, he]
  · intro cfg st inp hf
    have hguard : pollGuard (fetchTotalMemberCount inp.totalFetch) st.cachedCount = false := by
      rw [hf]; rfl
    constructor <;> simp [pollStep, hguard]

/-- Witness for C1 (amended): a rejected edit stops the loop. -/
theorem C1_witness :
    (pollStep { url := "u", worldsEnabled := false, embed := none, pollRate := 1 }
        { cachedCount := JSVal.undef, worldsCount := some [], running := true }
        { totalFetch := Except.ok "5", worldsFetch := Except.ok [], editOk := false,
          now := "t" }).state.running = false ∧
    (pollStep { url := "u", worldsEnabled := false, embed := none, pollRate := 1 }
        { cachedCount := JSVal.undef, worldsCount := some [], running := true }
        { totalFetch := Except.ok "5", worldsFetch := Except.ok [], editOk := false,
          now := "t" }).scheduled = false := by
  exact C1_amended_boundary_errors.1
    { url := "u", worldsEnabled := false, embed := none, pollRate := 1 }
    { cachedCount := JSVal.undef, worldsCount := some [], running := true }
    { totalFetch := Except.ok "5", worldsFetch := Except.ok [], editOk := false, now := "t" }
    5 (by decide) (by decide) (Or.inr rfl)

/-! ## Claim C4: the worlds-count cache -/

/-- Claim C4 counterexample: a cycle whose worlds fetch fails commits
`undefined` (not an integer sequence) to `worldsCount`, refuting the
claim that `worldsCount` is always an ordered sequence of integers. -/
theorem C4_counterexample :
    (pollStep { url := "u", worldsEnabled := true, embed := none, pollRate := 1 }
        { cachedCount := JSVal.undef, worldsCount := some [], running := true }
        { totalFetch := Except.error (), worldsFetch := Except.error (), editOk := true,
          now := "t" }).state.worldsCount = none := by decide

/-- Claim C4 (amended): with the worlds feature enabled, a poll cycle
always commits exactly `fetchWorldsMemberCount`'s result to
`worldsCount`: either `undefined` (when the fetch or some parse failed)
or the complete parsed sequence — one integer per element, never a
partial sequence. -/
theorem C4_worldsCount_amended :
    (∀ (cfg : Config) (st : BotState) (inp : PollInput),
      cfg.worldsEnabled = true →
      (pollStep cfg st inp).state.worldsCount = fetchWorldsMemberCount inp.worldsFetch) ∧
    (∀ (fetched : Except Unit (List String)) (ws : List Int),
      fetchWorldsMemberCount fetched = some ws →
      ∃ texts, fetched = Except.ok texts ∧ extractSegments texts = Except.ok ws ∧
        ws.length = texts.length) := by
  constructor
  · intro cfg st inp hw
    rw [pollStep_state_worldsCount, if_pos hw]
  · intro fetched ws h
    cases fetched with
    | error e => simp [fetchWorldsMemberCount] at h
    | ok texts =>
      simp only [fetchWorldsMemberCount] at h
      cases hs : extractSegments texts with
      | error pe => rw [hs] at h; cases h
      | ok ws' =>
        rw [hs] at h
        cases h
        exact ⟨texts, rfl, hs, extractSegments_ok_length texts ws hs⟩

/-- Witness for C4 (amended) at a concrete successful worlds fetch. -/
theorem C4_witness :
    (pollStep { url := "u", worldsEnabled := true, embed := none, pollRate := 1 }
        { cachedCount := JSVal.undef, worldsCount := some [], running := true }
        { totalFetch := Except.error (), worldsFetch := Except.ok ["3", "4"], editOk := true,
          now := "t" }).state.worldsCount = fetchWorldsMemberCount (Except.ok ["3", "4"]) := by
  exact C4_worldsCount_amended.1
    { url := "u", worldsEnabled := true, embed := none, pollRate := 1 }
    { cachedCount := JSVal.undef, worldsCount := some [], running := true }
    { totalFetch := Except.error (), worldsFetch := Except.ok ["3", "4"], editOk := true,
      now := "t" }
    rfl

/-! ## Claim C5: message acquisition -/

theorem foldl_newest_spec :
    ∀ (l : List ChannelMessage) (a : ChannelMessage),
      (l.foldl (fun best x => if best.createdTimestamp < x.createdTimestamp then x else best) a
          = a ∨
       l.foldl (fun best x => if best.createdTimestamp < x.createdTimestamp then x else best) a
          ∈ l) ∧
      a.createdTimestamp ≤
        (l.foldl (fun best x => if best.createdTimestamp < x.createdTimestamp then x else best)
          a).createdTimestamp ∧
      ∀ x ∈ l, x.createdTimestamp ≤
        (l.foldl (fun best x => if best.createdTimestamp < x.createdTimestamp then x else best)
          a).createdTimestamp := by
  intro l
  induction l with
  | nil => intro a; exact ⟨Or.inl rfl, le_refl _, by simp⟩
  | cons y ys ih =>
    intro a
    simp only [List.foldl_cons]
    obtain ⟨hmem, hle, hall⟩ :=
      ih (if a.createdTimestamp < y.createdTimestamp then y else a)
    refine ⟨?_, ?_, ?_⟩
    · rcases hmem with h | h
      · by_cases hc : a.createdTimestamp < y.createdTimestamp
        · right
          rw [h, if_pos hc]
          exact List.mem_cons_self y ys
        · left
          rw [h, if_neg hc]
      · right; exact List.mem_cons_of_mem y h
    · refine le_trans ?_ hle
      by_cases hc : a.createdTimestamp < y.createdTimestamp
      · rw [if_pos hc]; exact le_of_lt hc
      · rw [if_neg hc]
    · intro x hx
      rcases List.mem_cons.mp hx with rfl | hx
      · refine le_trans ?_ hle
        by_cases hc : a.createdTimestamp < x.createdTimestamp
        · rw [if_pos hc]
        · rw [if_neg hc]; exact le_of_not_lt hc
      · exact hall x hx

theorem newestMessage_spec (l : List ChannelMessage) (m : ChannelMessage)
    (h : newestMessage l = some m) :
    m ∈ l ∧ ∀ x ∈ l, x.createdTimestamp ≤ m.createdTimestamp := by
  cases l with
  | nil => cases h
  | cons a rest =>
    simp only [newestMessage, Option.some.injEq] at h
    obtain ⟨hmem, hle, hall⟩ := foldl_newest_spec rest a
    rw [h] at hmem hle hall
    constructor
    · rcases hmem with he | he
      · rw [he]; exact List.mem_cons_self a rest
      · exact List.mem_cons_of_mem a he
    · intro x hx
      rcases List.mem_cons.mp hx with rfl | hx
      · exact hle
      · exact hall x hx

/-- Claim C5: message acquisition examines only the ten most recent
channel messages; it keeps those authored by the bot that carry at least
one embed, and any found reference is a kept message with the greatest
creation timestamp; when none match, it sends a new message built from
the current cache state and returns that. -/
theorem C5_message_acquisition (cfg : Config) (selfId : String)
    (channelMsgs : List ChannelMessage) (cached : JSVal)
    (worldsCount : Option (List Int)) (now : String) :
    getOrSendMessage cfg selfId channelMsgs cached worldsCount now =
      getOrSendMessage cfg selfId (channelMsgs.take 10) cached worldsCount now ∧
    (∀ m, getOrSendMessage cfg selfId channelMsgs cached worldsCount now =
        Except.ok (AcquireResult.found m) →
      m ∈ (channelMsgs.take 10).filter (messageMatches selfId) ∧
      ∀ x ∈ (channelMsgs.take 10).filter (messageMatches selfId),
        x.createdTimestamp ≤ m.createdTimestamp) ∧
    ((channelMsgs.take 10).filter (messageMatches selfId) = [] →
      getOrSendMessage cfg selfId channelMsgs cached worldsCount now =
        (buildMessage cfg cached worldsCount now).map AcquireResult.sent) := by
  refine ⟨?_, ?_, ?_⟩
  · simp [getOrSendMessage, List.take_take]
  · intro m h
    simp only [getOrSendMessage] at h
    cases hn : newestMessage ((channelMsgs.take 10).filter (messageMatches selfId)) with
    | none =>
      rw [hn] at h
      cases hbm : buildMessage cfg cached worldsCount now <;>
        rw [hbm] at h <;> simp [Except.map] at h
    | some m' =>
      rw [hn] at h
      have hm : m' = m := by
        cases h
        rfl
      rw [hm] at hn
      exact newestMessage_spec _ m hn
  · intro hemp
    simp only [getOrSendMessage]
    rw [hemp]
    rfl

/-- Witness for C5: a channel with two matching messages; acquisition
returns the one with the greater timestamp, which is in the filtered
set. -/
theorem C5_witness :
    (⟨"bot", 2, 7, "d"⟩ : ChannelMessage) ∈
      (([⟨"bot", 1, 5, "a"⟩, ⟨"other", 1, 9, "b"⟩, ⟨"bot", 0, 9, "c"⟩,
         ⟨"bot", 2, 7, "d"⟩] : List ChannelMessage).take 10).filter
        (messageMatches "bot") := by
  exact ((C5_message_acquisition
    { url := "u", worldsEnabled := false, embed := none, pollRate := 1 } "bot"
    [⟨"bot", 1, 5, "a"⟩, ⟨"other", 1, 9, "b"⟩, ⟨"bot", 0, 9, "c"⟩, ⟨"bot", 2, 7, "d"⟩]
    JSVal.undef (some []) "t").2.1 ⟨"bot", 2, 7, "d"⟩ (by decide)).1

/-! ## Claim C6: config template merge -/

/-- Claim C6: when a config embed template is present, every present
top-level template key overwrites the corresponding default key of the
rendered embed, except `fields`, whose entries are appended after the
generated per-world fields. -/
theorem C6_template_merge (cfg : Config) (t : EmbedTemplate) (cached : JSVal)
    (ws : List Int) (now : String) (h : cfg.embed = some t) :
    ∃ e, buildMessage cfg cached (some ws) now =
        Except.ok { embeds := [e], content := "" } ∧
      e.color = t.color.getD 0x0099ff ∧
      e.title = t.title.getD "Online Players" ∧
      e.url = t.url.getD cfg.url ∧
      e.description = t.description.getD ("Current member count: " ++ countText cached) ∧
      e.timestamp = t.timestamp.getD now ∧
      e.fields = worldFields ws ++ t.fields.getD [] := by
  refine ⟨applyTemplate (defaultEmbed cfg cached ws now) (some t),
    ?_, rfl, rfl, rfl, rfl, rfl, ?_⟩
  · simp [buildMessage, h]
  · cases hf : t.fields <;> simp [applyTemplate, defaultEmbed, hf]

/-- Witness for C6: the spec's merge-law instance — template with title
`"X"` and one extra field, two generated world fields. -/
theorem C6_witness :
    (buildMessage
        { url := "u", worldsEnabled := true,
          embed := some { title := some "X", fields := some [⟨"extra", "v", false⟩] },
          pollRate := 1 }
        (JSVal.int 5) (some [3, 4]) "t").map (fun p => p.embeds.map Embed.title) =
      Except.ok ["X"] ∧
    (buildMessage
        { url := "u", worldsEnabled := true,
          embed := some { title := some "X", fields := some [⟨"extra", "v", false⟩] },
          pollRate := 1 }
        (JSVal.int 5) (some [3, 4]) "t").map (fun p => p.embeds.map Embed.fields) =
      Except.ok [worldFields [3, 4] ++ [⟨"extra", "v", false⟩]] := by
  obtain ⟨e, h1, hc, ht, hu, hd, hts, hf⟩ := C6_template_merge
    { url := "u", worldsEnabled := true,
      embed := some { title := some "X", fields := some [⟨"extra", "v", false⟩] },
      pollRate := 1 }
    { title := some "X", fields := some [⟨"extra", "v", false⟩] }
    (JSVal.int 5) [3, 4] "t" rfl
  constructor
  · rw [h1]
    simp [Except.map, ht]
  · rw [h1]
    simp [Except.map, hf]

/-! ## Claim C10: every bot-authored payload has one embed -/

/-- Claim C10: `buildMessage`, whenever it returns, returns a payload
with exactly one embed and empty string content; such a message,
authored by the bot itself, satisfies the author-and-embed filter used
by restart-time message acquisition. -/
theorem C10_payload_shape (cfg : Config) (cached : JSVal)
    (worldsCount : Option (List Int)) (now : String) (p : MessagePayload)
    (h : buildMessage cfg cached worldsCount now = Except.ok p) :
    p.embeds.length = 1 ∧ p.content = "" ∧
    (∀ selfId ts mid, messageMatches selfId
      { authorId := selfId, embedCount := p.embeds.length, createdTimestamp := ts,
        id := mid } = true) := by
  cases worldsCount with
  | none => cases h
  | some ws =>
    simp only [buildMessage, Except.ok.injEq] at h
    rw [← h]
    refine ⟨rfl, rfl, ?_⟩
    intro selfId ts mid
    simp [messageMatches]

/-- Witness for C10 at a concrete build. -/
theorem C10_witness :
    (({ embeds := [applyTemplate (defaultEmbed
          { url := "u", worldsEnabled := false, embed := none, pollRate := 1 }
          JSVal.undef [] "t") none], content := "" } : MessagePayload)).embeds.length = 1 ∧
    (({ embeds := [applyTemplate (defaultEmbed
          { url := "u", worldsEnabled := false, embed := none, pollRate := 1 }
          JSVal.undef [] "t") none], content := "" } : MessagePayload)).content = "" := by
  have h := C10_payload_shape
    { url := "u", worldsEnabled := false, embed := none, pollRate := 1 }
    JSVal.undef (some []) "t"
    { embeds := [applyTemplate (defaultEmbed
        { url := "u", worldsEnabled := false, embed := none, pollRate := 1 }
        JSVal.undef [] "t") none], content := "" }
    rfl
  exact ⟨h.1, h.2.1⟩

end OnlineBot
